import Mathlib

/-!
Verification of the mouse-remapper core of `src/app.py` (screenRotator).

The embedding below models the `MouseRemapper` class: its mutable fields
become a structure, one iteration of the body of `remap_thread`'s `while
self.running` loop becomes the function `MouseRemapper.pollCycle` (the
sampled cursor position read by `GetCursorPos` is a parameter, and the
position written by `SetCursorPos` — if any — is returned), and the public
methods `set_orientation`, `start` and `stop` become functions on the
structure.  Coordinates are integers (`c_long` in the source); orientations
are the `DMDO_*` numeric constants of the source.
-/

/-- Orientation constant for 0 degrees (src/app.py line 35). -/
def DMDO_DEFAULT : Nat := 0

/-- Orientation constant for 90 degrees (src/app.py line 36). -/
def DMDO_90 : Nat := 1

/-- Orientation constant for 180 degrees (src/app.py line 37). -/
def DMDO_180 : Nat := 2

/-- Orientation constant for 270 degrees (src/app.py line 38). -/
def DMDO_270 : Nat := 3

/-- The delta transform of `remap_thread` (src/app.py lines 298-310): the
if/elif chain on `orientation` producing `transformed_dx, transformed_dy`.
Any orientation other than `DMDO_90`, `DMDO_180`, `DMDO_270` falls into the
final `else` branch, which leaves the delta unchanged. -/
def coordinateTransform (orientation : Nat) (dx dy : Int) : Int × Int :=
  if orientation = DMDO_90 then (-dy, dx)
  else if orientation = DMDO_180 then (-dx, -dy)
  else if orientation = DMDO_270 then (dy, -dx)
  else (dx, dy)

/-- The clamp of `remap_thread` (src/app.py lines 316-325): one coordinate
`v` bounded to `[0, extent-1]` by the source's `if v < 0 ... elif v >=
extent ...` chain. -/
def clampCoord (v extent : Int) : Int :=
  if v < 0 then 0
  else if v ≥ extent then extent - 1
  else v

/-- The mutable state of the `MouseRemapper` class (src/app.py lines
223-237), plus `workers`, the number of live `remap_thread` loops spawned
by `start` (the source stores the `threading.Thread` object in
`self.thread`; `workers` counts the threads started and not yet exited). -/
structure MouseRemapper where
  enabled : Bool
  current_orientation : Nat
  screen_width : Int
  screen_height : Int
  running : Bool
  last_physical_x : Int
  last_physical_y : Int
  ignore_next_read : Bool
  workers : Nat
deriving Repr, DecidableEq

/-- `MouseRemapper.__init__` (src/app.py lines 223-237). -/
def MouseRemapper.init : MouseRemapper :=
  { enabled := false
    current_orientation := DMDO_DEFAULT
    screen_width := 0
    screen_height := 0
    running := false
    last_physical_x := 0
    last_physical_y := 0
    ignore_next_read := false
    workers := 0 }

/-- `MouseRemapper.set_orientation` (src/app.py lines 239-249).  `cursor`
is the position returned by the `GetCursorPos` call on line 246. -/
def MouseRemapper.set_orientation (s : MouseRemapper) (orientation : Nat)
    (width height : Int) (cursor : Int × Int) : MouseRemapper :=
  { s with
    current_orientation := orientation
    screen_width := width
    screen_height := height
    last_physical_x := cursor.1
    last_physical_y := cursor.2
    ignore_next_read := false }

/-- The observable outcome of one iteration of the `while self.running`
loop of `remap_thread`: the updated object state, the updated value of the
local variable `orientation`, and the position passed to `SetCursorPos`
when the iteration writes the cursor (`none` when it does not). -/
structure CycleResult where
  state : MouseRemapper
  localOrient : Nat
  write : Option (Int × Int)
deriving Repr, DecidableEq

/-- One iteration of the poll loop of `remap_thread` (src/app.py lines
261-338).  `orientation` is the loop-local variable of the same name;
`cursor` is the position returned by `GetCursorPos` in this iteration.
When `running` is false the loop condition fails and nothing happens. -/
def MouseRemapper.pollCycle (s : MouseRemapper) (orientation : Nat)
    (cursor : Int × Int) : CycleResult :=
  if s.running = false then
    ⟨s, orientation, none⟩
  else if s.enabled = false ∨ s.current_orientation = DMDO_DEFAULT then
    ⟨s, s.current_orientation, none⟩
  else if orientation ≠ s.current_orientation then
    ⟨{ s with
        last_physical_x := cursor.1
        last_physical_y := cursor.2
        ignore_next_read := false },
      s.current_orientation, none⟩
  else if s.ignore_next_read then
    ⟨{ s with
        last_physical_x := cursor.1
        last_physical_y := cursor.2
        ignore_next_read := false },
      orientation, none⟩
  else
    let dx := cursor.1 - s.last_physical_x
    let dy := cursor.2 - s.last_physical_y
    if dx ≠ 0 ∨ dy ≠ 0 then
      let t := coordinateTransform orientation dx dy
      let new_x := clampCoord (s.last_physical_x + t.1) s.screen_width
      let new_y := clampCoord (s.last_physical_y + t.2) s.screen_height
      ⟨{ s with
          last_physical_x := new_x
          last_physical_y := new_y
          ignore_next_read := true },
        orientation, some (new_x, new_y)⟩
    else
      ⟨s, orientation, none⟩

/-- `MouseRemapper.start` (src/app.py lines 340-348): a no-op when already
enabled, otherwise sets both flags and spawns one worker thread (the
priority-boost code on lines 350-373 does not touch remapper state). -/
def MouseRemapper.start (s : MouseRemapper) : MouseRemapper :=
  if s.enabled then s
  else { s with enabled := true, running := true, workers := s.workers + 1 }

/-- `MouseRemapper.stop` (src/app.py lines 375-384): a no-op when not
enabled, otherwise clears both flags (the spawned worker loop subsequently
exits because its `while self.running` condition fails). -/
def MouseRemapper.stop (s : MouseRemapper) : MouseRemapper :=
  if s.enabled = false then s
  else { s with running := false, enabled := false }

/-- The orientation that undoes a given one in the four-rotation group:
rotation indices add modulo 4, so the inverse of index `o` is
`(4 - o % 4) % 4` (0 ↦ 0, 90 ↦ 270, 180 ↦ 180, 270 ↦ 90). -/
def invOrientation (o : Nat) : Nat :=
  (4 - o % 4) % 4

/-- C2: the delta transform returns `(dx, dy)` at 0 degrees, `(-dy, dx)` at
90 degrees clockwise, `(-dx, -dy)` at 180 degrees and `(dy, -dx)` at 270
degrees clockwise, for every integer delta; it is a pure total function
with no error case. -/
theorem spec_C2_transform_table (dx dy : Int) :
    coordinateTransform DMDO_DEFAULT dx dy = (dx, dy) ∧
    coordinateTransform DMDO_90 dx dy = (-dy, dx) ∧
    coordinateTransform DMDO_180 dx dy = (-dx, -dy) ∧
    coordinateTransform DMDO_270 dx dy = (dy, -dx) := by
  refine ⟨?_, ?_, ?_, ?_⟩ <;>
    simp [coordinateTransform, DMDO_DEFAULT, DMDO_90, DMDO_180, DMDO_270]

/-- C5: for every orientation value outside the four known constants the
delta transform behaves as the identity (the final `else` branch), rather
than raising an error. -/
theorem spec_C5_unknown_orientation_identity (o : Nat) (dx dy : Int)
    (_h0 : o ≠ DMDO_DEFAULT) (h1 : o ≠ DMDO_90) (h2 : o ≠ DMDO_180)
    (h3 : o ≠ DMDO_270) :
    coordinateTransform o dx dy = (dx, dy) := by
  simp [coordinateTransform, h1, h2, h3]

/-- Witness for C5 at the concrete unknown orientation value 4 and delta
(5, 7). -/
theorem spec_C5_witness :
    coordinateTransform 4 5 7 = (5, 7) :=
  spec_C5_unknown_orientation_identity 4 5 7 (by decide) (by decide)
    (by decide) (by decide)

/-- C6: for each of the four orientations, applying the delta transform and
then the transform at the inverse orientation of the four-rotation group
returns every integer delta unchanged. -/
theorem spec_C6_round_trip (dx dy : Int) :
    (coordinateTransform (invOrientation DMDO_DEFAULT)
      (coordinateTransform DMDO_DEFAULT dx dy).1
      (coordinateTransform DMDO_DEFAULT dx dy).2 = (dx, dy)) ∧
    (coordinateTransform (invOrientation DMDO_90)
      (coordinateTransform DMDO_90 dx dy).1
      (coordinateTransform DMDO_90 dx dy).2 = (dx, dy)) ∧
    (coordinateTransform (invOrientation DMDO_180)
      (coordinateTransform DMDO_180 dx dy).1
      (coordinateTransform DMDO_180 dx dy).2 = (dx, dy)) ∧
    (coordinateTransform (invOrientation DMDO_270)
      (coordinateTransform DMDO_270 dx dy).1
      (coordinateTransform DMDO_270 dx dy).2 = (dx, dy)) := by
  refine ⟨?_, ?_, ?_, ?_⟩ <;>
    simp [coordinateTransform, invOrientation,
      DMDO_DEFAULT, DMDO_90, DMDO_180, DMDO_270]

/-- C1: in a cycle where the remapper is running and enabled, the
orientation is not the default, no resync is pending (the loop-local
orientation matches the shared one), no self-feedback suppression is
pending, and the sampled cursor differs from the stored physical sample,
the cycle writes the clamped transformed position, stores it as the new
physical sample, and raises the suppression flag. -/
theorem spec_C1_write_cycle (s : MouseRemapper) (cursor : Int × Int)
    (hrun : s.running = true) (hen : s.enabled = true)
    (hor : s.current_orientation ≠ DMDO_DEFAULT)
    (hig : s.ignore_next_read = false)
    (hmove : cursor ≠ (s.last_physical_x, s.last_physical_y)) :
    s.pollCycle s.current_orientation cursor =
      ⟨{ s with
          last_physical_x := clampCoord (s.last_physical_x +
            (coordinateTransform s.current_orientation
              (cursor.1 - s.last_physical_x)
              (cursor.2 - s.last_physical_y)).1) s.screen_width
          last_physical_y := clampCoord (s.last_physical_y +
            (coordinateTransform s.current_orientation
              (cursor.1 - s.last_physical_x)
              (cursor.2 - s.last_physical_y)).2) s.screen_height
          ignore_next_read := true },
        s.current_orientation,
        some (clampCoord (s.last_physical_x +
            (coordinateTransform s.current_orientation
              (cursor.1 - s.last_physical_x)
              (cursor.2 - s.last_physical_y)).1) s.screen_width,
          clampCoord (s.last_physical_y +
            (coordinateTransform s.current_orientation
              (cursor.1 - s.last_physical_x)
              (cursor.2 - s.last_physical_y)).2) s.screen_height)⟩ := by
  obtain ⟨cx, cy⟩ := cursor
  have hne : ¬ (cx = s.last_physical_x ∧ cy = s.last_physical_y) := by
    rintro ⟨h1, h2⟩
    exact hmove (by rw [h1, h2])
  have hmv : cx - s.last_physical_x ≠ 0 ∨ cy - s.last_physical_y ≠ 0 := by
    omega
  simp only [MouseRemapper.pollCycle, hrun, hen, hor, hig]
  simp [hmv]

/-- Concrete state for the C1 witness: running at 90 degrees on a 100×100
screen with stored sample (10, 20). -/
def c1_state : MouseRemapper :=
  { enabled := true
    current_orientation := DMDO_90
    screen_width := 100
    screen_height := 100
    running := true
    last_physical_x := 10
    last_physical_y := 20
    ignore_next_read := false
    workers := 1 }

/-- Witness for C1: sampling (13, 21) from `c1_state` (delta (3, 1),
transformed to (-1, 3) at 90 degrees) writes (9, 23) and raises the flag. -/
theorem spec_C1_witness :
    (c1_state.pollCycle c1_state.current_orientation (13, 21)).write =
      some (9, 23) ∧
    (c1_state.pollCycle c1_state.current_orientation
      (13, 21)).state.ignore_next_read = true := by
  have h := spec_C1_write_cycle c1_state (13, 21) rfl rfl (by decide) rfl
    (by decide)
  rw [h]
  decide

/-- Concrete state for C3: 180 degrees, extent 1000×800, sample (990, 10). -/
def c3_state : MouseRemapper :=
  { enabled := true
    current_orientation := DMDO_180
    screen_width := 1000
    screen_height := 800
    running := true
    last_physical_x := 990
    last_physical_y := 10
    ignore_next_read := false
    workers := 1 }

/-- C3 counterexample: from `c3_state` with sampled position (1010, 10)
(physical delta (20, 0)), the cycle writes (970, 10) — the 180-degree
transform negates the delta — so the written x is 970, not the claimed
saturated value 999. -/
theorem spec_C3_counterexample :
    (c3_state.pollCycle DMDO_180 (1010, 10)).write = some (970, 10) ∧
    (c3_state.pollCycle DMDO_180 (1010, 10)).write ≠ some (999, 10) := by
  constructor <;> decide

/-- C3 amended: under orientation 180 degrees, extent 1000×800, sample
(990, 10) and sampled position (1010, 10), the cycle writes (970, 10):
the transformed delta is (-20, 0), so x = 990 - 20 = 970 lies inside the
bounds and no saturation occurs; y stays 10. -/
theorem spec_C3_writes_970 :
    (c3_state.pollCycle DMDO_180 (1010, 10)).write = some (970, 10) := by
  decide

/-- The clamp always lands in `[0, extent-1]` when the extent is positive. -/
theorem clampCoord_mem (v extent : Int) (h : 1 ≤ extent) :
    0 ≤ clampCoord v extent ∧ clampCoord v extent ≤ extent - 1 := by
  unfold clampCoord
  split
  · omega
  · split <;> omega

/-- Every cycle either writes nothing or writes exactly the clamped
transformed position. -/
theorem pollCycle_write_characterization (s : MouseRemapper) (o : Nat)
    (c : Int × Int) :
    (s.pollCycle o c).write = none ∨
    (s.pollCycle o c).write =
      some (clampCoord (s.last_physical_x +
          (coordinateTransform o (c.1 - s.last_physical_x)
            (c.2 - s.last_physical_y)).1) s.screen_width,
        clampCoord (s.last_physical_y +
          (coordinateTransform o (c.1 - s.last_physical_x)
            (c.2 - s.last_physical_y)).2) s.screen_height) := by
  unfold MouseRemapper.pollCycle
  simp only []
  repeat' split
  all_goals first | exact Or.inl rfl | exact Or.inr rfl

/-- Concrete state for the C4 counterexample: a writing cycle under the
non-negative (zero) screen extent. -/
def c4_state : MouseRemapper :=
  { enabled := true
    current_orientation := DMDO_90
    screen_width := 0
    screen_height := 0
    running := true
    last_physical_x := 5
    last_physical_y := 5
    ignore_next_read := false
    workers := 1 }

/-- C4 counterexample: with the non-negative extent 0×0, the cycle from
`c4_state` sampling (6, 5) writes (-1, -1), whose coordinates are
negative, hence outside `[0, width-1] × [0, height-1]`. -/
theorem spec_C4_counterexample :
    (c4_state.pollCycle DMDO_90 (6, 5)).write = some (-1, -1) ∧
    ¬ (0 ≤ (-1 : Int)) := by
  constructor <;> decide

/-- C4 amended: every cycle that writes the cursor under a positive width
and height writes a position inside `[0, width-1] × [0, height-1]`:
out-of-range coordinates saturate to the nearest bound. -/
theorem spec_C4_write_in_bounds (s : MouseRemapper) (orientation : Nat)
    (cursor p : Int × Int)
    (hw : 1 ≤ s.screen_width) (hh : 1 ≤ s.screen_height)
    (hwrite : (s.pollCycle orientation cursor).write = some p) :
    0 ≤ p.1 ∧ p.1 ≤ s.screen_width - 1 ∧
    0 ≤ p.2 ∧ p.2 ≤ s.screen_height - 1 := by
  rcases pollCycle_write_characterization s orientation cursor with hc | hc
  · rw [hwrite] at hc
    exact absurd hc (by simp)
  · rw [hwrite] at hc
    obtain ⟨hx, hy⟩ := Prod.mk.injEq .. ▸ Option.some.inj hc
    rw [hx, hy]
    obtain ⟨h1, h2⟩ := clampCoord_mem (s.last_physical_x +
      (coordinateTransform orientation (cursor.1 - s.last_physical_x)
        (cursor.2 - s.last_physical_y)).1) s.screen_width hw
    obtain ⟨h3, h4⟩ := clampCoord_mem (s.last_physical_y +
      (coordinateTransform orientation (cursor.1 - s.last_physical_x)
        (cursor.2 - s.last_physical_y)).2) s.screen_height hh
    exact ⟨h1, h2, h3, h4⟩

/-- C7: after `set_orientation` with any orientation, width and height, a
poll cycle that samples the same (unmoved) cursor position writes nothing:
the physical sample was resynchronized to the cursor, so the computed delta
is zero whatever the loop-local orientation is. -/
theorem spec_C7_resync_no_phantom_jump (s : MouseRemapper)
    (orientation localOrient : Nat) (width height : Int)
    (cursor : Int × Int) :
    (s.set_orientation orientation width height cursor).last_physical_x =
      cursor.1 ∧
    (s.set_orientation orientation width height cursor).last_physical_y =
      cursor.2 ∧
    ((s.set_orientation orientation width height cursor).pollCycle
      localOrient cursor).write = none := by
  refine ⟨rfl, rfl, ?_⟩
  unfold MouseRemapper.set_orientation MouseRemapper.pollCycle
  simp only []
  repeat' split
  any_goals rfl
  rename_i hcond
  simp at hcond

/-- C8: `start` on an already-enabled remapper is a no-op (state, worker
count included, unchanged), `stop` on a disabled remapper is a no-op, and
starting from the initial state leaves exactly one worker. -/
theorem spec_C8_start_stop_idempotent (s : MouseRemapper) :
    (s.enabled = true → s.start = s) ∧
    (s.enabled = false → s.stop = s) ∧
    MouseRemapper.init.start.workers = 1 := by
  refine ⟨?_, ?_, rfl⟩
  · intro h
    simp [MouseRemapper.start, h]
  · intro h
    simp [MouseRemapper.stop, h]

/-- Witness for C8: a second `start` after starting from the initial state
changes nothing, and `stop` on the initial (stopped) state changes
nothing. -/
theorem spec_C8_witness :
    MouseRemapper.init.start.start = MouseRemapper.init.start ∧
    MouseRemapper.init.stop = MouseRemapper.init :=
  ⟨(spec_C8_start_stop_idempotent MouseRemapper.init.start).1 rfl,
   (spec_C8_start_stop_idempotent MouseRemapper.init).2.1 rfl⟩

/-- C10: the `enabled` and `running` flags start out both false and stay
equal across every operation: `start` sets both, `stop` clears both,
`set_orientation` touches neither, and a poll cycle touches neither. -/
theorem spec_C10_enabled_eq_running (s : MouseRemapper)
    (orientation localOrient : Nat) (width height : Int)
    (cursor : Int × Int) (h : s.enabled = s.running) :
    (MouseRemapper.init.enabled = MouseRemapper.init.running) ∧
    (s.start.enabled = s.start.running) ∧
    (s.stop.enabled = s.stop.running) ∧
    ((s.set_orientation orientation width height cursor).enabled =
      (s.set_orientation orientation width height cursor).running) ∧
    ((s.pollCycle localOrient cursor).state.enabled =
      (s.pollCycle localOrient cursor).state.running) := by
  refine ⟨rfl, ?_, ?_, h, ?_⟩
  · unfold MouseRemapper.start
    split
    · exact h
    · rfl
  · unfold MouseRemapper.stop
    split
    · exact h
    · rfl
  · unfold MouseRemapper.pollCycle
    simp only []
    repeat' split
    all_goals exact h

/-- Witness for C10: after starting and then stopping from the initial
state the two flags are still equal. -/
theorem spec_C10_witness :
    MouseRemapper.init.start.stop.enabled =
      MouseRemapper.init.start.stop.running :=
  (spec_C10_enabled_eq_running MouseRemapper.init.start DMDO_90 DMDO_90
    100 100 (3, 4) rfl).2.2.1

/-- Concrete state for the C4 witness: running at 90 degrees on a 100×50
screen with stored sample (10, 20). -/
def c4w_state : MouseRemapper :=
  { enabled := true
    current_orientation := DMDO_90
    screen_width := 100
    screen_height := 50
    running := true
    last_physical_x := 10
    last_physical_y := 20
    ignore_next_read := false
    workers := 1 }

/-- Witness for C4: from `c4w_state`, sampling (13, 21) writes (9, 23),
which lies inside `[0, 99] × [0, 49]`. -/
theorem spec_C4_witness :
    0 ≤ ((9 : Int), (23 : Int)).1 ∧
    ((9 : Int), (23 : Int)).1 ≤ c4w_state.screen_width - 1 ∧
    0 ≤ ((9 : Int), (23 : Int)).2 ∧
    ((9 : Int), (23 : Int)).2 ≤ c4w_state.screen_height - 1 :=
  spec_C4_write_in_bounds c4w_state DMDO_90 (13, 21) (9, 23)
    (by decide) (by decide) (by decide)
